import Mathlib

/-!
Verification of `dinosaur_news_monitor.py` against its natural-language
specification.

This file shallowly embeds the parts of the program that the frozen claims
are about: the dedup store (`generate_item_id` / `is_new_item` and the
optimized fetch/send cycle), the classification cascade
(`prefilter_before_api`, `classify_with_claude`, `classify_with_prefilter`,
`calculate_keyword_score`), the translation cache
(`SmartTranslationCache.get_or_translate`, `_load_cache`,
`_fallback_translation`) and the persisted-state loaders (`load_state`,
`APIUsageMonitor._load_usage_data`).

Modelling conventions:
- Python strings are Lean `String`s; `str.lower` / `str.upper` / `str.strip`
  and whitespace splitting are modelled character-wise (faithful on the
  ASCII data the program's keyword tables use).
- `hashlib.md5(...).hexdigest()` and `hashlib.sha256(...).hexdigest()` are
  modelled by an arbitrary function `digest : String → String` passed as a
  parameter: no claim depends on any property of the hash beyond it being a
  function of its input string.
- `datetime` timestamps are integers; `timedelta(days=max_age_days)` is the
  integer `maxAge` in the same unit.
- Remote calls (Claude judge, translation) are oracles: `Except Unit String`
  where `Except.error` models a raised exception and `Except.ok r` a reply.
  Python functions that catch all exceptions are total Lean functions.
- Python `set` state is a duplicate-free `List String` grown by
  `is_new_item`; `dict` caches are association lists with front insertion
  (later writes shadow earlier ones, as dict assignment does).
-/

namespace DinoNews

/-! ### Python string primitives -/

/-- `str.lower()` (character-wise; faithful on ASCII). -/
def pyLower (s : String) : String := String.mk (s.data.map Char.toLower)

/-- `str.upper()` (character-wise; faithful on ASCII). -/
def pyUpper (s : String) : String := String.mk (s.data.map Char.toUpper)

/-- `str.strip()`: drop leading and trailing whitespace. -/
def pyStrip (s : String) : String :=
  String.mk
    (((s.data.dropWhile Char.isWhitespace).reverse.dropWhile
      Char.isWhitespace).reverse)

/-- `text[:n]` character slicing. -/
def strTake (s : String) (n : Nat) : String := String.mk (s.data.take n)

/-- Whether `needle` occurs as a contiguous subsequence of `hay`
(the Python `needle in hay` substring test). -/
def containsSeq (needle : List Char) : List Char → Bool
  | [] => needle.isEmpty
  | c :: t => needle.isPrefixOf (c :: t) || containsSeq needle t

/-- Python `needle in hay` on strings. -/
def strContains (hay needle : String) : Bool := containsSeq needle.data hay.data

/-- `text.split()`: split on whitespace runs, dropping empty pieces.
First argument accumulates the current word, reversed. -/
def pyWordsAux (cur : List Char) : List Char → List (List Char)
  | [] => if cur.isEmpty then [] else [cur.reverse]
  | c :: t =>
    if c.isWhitespace then
      if cur.isEmpty then pyWordsAux [] t else cur.reverse :: pyWordsAux [] t
    else pyWordsAux (c :: cur) t

/-- Join words with a single space. -/
def joinSp : List (List Char) → List Char
  | [] => []
  | [w] => w
  | w :: rest => w ++ ' ' :: joinSp rest

/-- `' '.join(text.split())` — the whitespace normalization used by
`get_or_translate`. -/
def normalizeWs (s : String) : String := String.mk (joinSp (pyWordsAux [] s.data))

/-- The lower-cased, space-joined text `(title + ' ' + summary).lower()`
that both the prefilter and the keyword scorer operate on. -/
def combinedText (title summary : String) : String :=
  pyLower (title ++ " " ++ summary)

/-! ### Keyword tables (transcribed from the source) -/

/-- The instant-approve keyword list local to `prefilter_before_api`. -/
def instant_approve_keywords : List String :=
  ["dinosaur", "dinosaurs", "fossil", "fossils", "paleontology",
   "paleontologist", "tyrannosaurus", "triceratops", "stegosaurus",
   "velociraptor", "cretaceous", "jurassic", "triassic", "mesozoic",
   "prehistoric reptile", "ancient reptile", "fossil discovery",
   "paleontological", "dinosaur species", "extinct reptile"]

/-- The instant-reject keyword list local to `prefilter_before_api`. -/
def instant_reject_keywords : List String :=
  ["covid", "coronavirus", "pandemic", "vaccine", "medical", "clinical",
   "cancer", "tumor", "disease", "treatment", "therapy", "hospital",
   "politics", "election", "government", "policy", "president", "minister",
   "rocket", "satellite", "space mission", "mars rover", "nasa launch",
   "stock", "investment", "cryptocurrency", "business", "company",
   "smartphone", "ai technology", "artificial intelligence",
   "machine learning", "school meals", "food system", "nutrition",
   "diet change", "brain cancer"]

/-- The `strong_dino` weight table of `_calculate_keyword_score`
(Python floats 4.0/3.0 are the integers 4/3). -/
def strong_dino : List (String × Int) :=
  [("dinosaur", 4), ("fossil", 3), ("paleontology", 4), ("cretaceous", 3),
   ("jurassic", 3), ("triassic", 3), ("mesozoic", 4), ("extinct reptile", 3)]

/-- The `strong_exclude` weight table of `_calculate_keyword_score`. -/
def strong_exclude_scores : List (String × Int) :=
  [("cancer", -5), ("rocket", -4), ("politics", -4), ("smartphone", -3),
   ("covid", -4), ("AI technology", -3), ("human burial", -4),
   ("modern medicine", -4)]

/-! ### Classification cascade -/

/-- `prefilter_before_api`: instant approve beats instant reject beats
undecided (`None`). Pure substring checks over `combinedText`. -/
def prefilter_before_api (title summary : String) : Option Bool :=
  if instant_approve_keywords.any
      (fun kw => strContains (combinedText title summary) kw) then some true
  else if instant_reject_keywords.any
      (fun kw => strContains (combinedText title summary) kw) then some false
  else none

/-- `classify_with_claude`: `hasClient` models `self.claude_client` being
set; `judge` is the remote reply oracle (`Except.error` = exception, caught).
Returns `true` only on an exact stripped upper-cased "RELEVANT"; every other
reply, exception, or client absence yields `false`. Total: no exception
escapes. -/
def classify_with_claude (hasClient : Bool) (judge : Except Unit String) : Bool :=
  if hasClient = false then false
  else
    match judge with
    | Except.error _ => false
    | Except.ok r =>
      if pyUpper (pyStrip r) = "RELEVANT" then true else false

/-- `classify_with_prefilter`: prefilter first, Claude only when undecided.
Second component records whether the remote judge was invoked. -/
def classify_with_prefilter (title summary : String) (hasClient : Bool)
    (judge : Except Unit String) : Bool × Bool :=
  match prefilter_before_api title summary with
  | some b => (b, false)
  | none => (classify_with_claude hasClient judge, true)

/-- Accumulate keyword weights left to right: each table entry whose keyword
occurs in `comb` adds its weight (the two `for` loops of
`_calculate_keyword_score`). -/
def scoreList (comb : String) : List (String × Int) → Int → Int
  | [], acc => acc
  | p :: rest, acc =>
    scoreList comb rest (if strContains comb p.1 then acc + p.2 else acc)

/-- `_calculate_keyword_score` (module-level in the source): signed keyword
score over `combinedText`, positive table then negative table. -/
def calculate_keyword_score (title summary : String) : Int :=
  scoreList (combinedText title summary) strong_exclude_scores
    (scoreList (combinedText title summary) strong_dino 0)

/-! ### Deduplication store and the optimized cycle -/

/-- The monitor's dedup state: `self.sent_items` (a Python set of digests). -/
structure MonitorState where
  sent_items : List String
deriving DecidableEq, Repr

/-- Boolean membership in the sent set (Python `in` on a set). -/
def memStr (x : String) : List String → Bool
  | [] => false
  | y :: t => x == y || memStr x t

/-- `generate_item_id`: digest of the bare concatenation `f"{title}{link}"`
(no separator). `digest` models `hashlib.md5(...).hexdigest()`. -/
def generate_item_id (digest : String → String) (title link : String) : String :=
  digest (title ++ link)

/-- `is_new_item`: returns `true` and adds the id when unseen (the check is
a reservation), `false` otherwise. -/
def is_new_item (digest : String → String) (st : MonitorState)
    (title link : String) : Bool × MonitorState :=
  let item_id := generate_item_id digest title link
  if memStr item_id st.sent_items then (false, st)
  else (true, ⟨item_id :: st.sent_items⟩)

/-- One RSS entry (entries are assumed inside the 24h freshness window: the
source's date guard only drops older entries before any of the logic
modelled here runs). -/
structure Entry where
  title : String
  summary : String
  link : String
deriving DecidableEq, Repr

/-- Per-entry body of `fetch_rss_feed_optimized`: dedup check (reservation),
then prefilter; an instant approve `continue`s (line 530), an instant reject
falls through, an undecided entry consults Claude; surviving entries reach
the second `is_new_item` guard (line 543) before being collected for
delivery. Translation always succeeds and does not affect control flow, so
it is not modelled. -/
def processEntry (digest : String → String) (hasClient : Bool)
    (judge : Except Unit String) (st : MonitorState) (e : Entry) :
    Option Entry × MonitorState :=
  let c1 := is_new_item digest st e.title e.link
  if c1.1 = false then (none, c1.2)
  else
    match prefilter_before_api e.title e.summary with
    | some true => (none, c1.2)
    | some false =>
      let c2 := is_new_item digest c1.2 e.title e.link
      if c2.1 then (some e, c2.2) else (none, c2.2)
    | none =>
      if classify_with_claude hasClient judge then
        let c2 := is_new_item digest c1.2 e.title e.link
        if c2.1 then (some e, c2.2) else (none, c2.2)
      else (none, c1.2)

/-- The entry loop of `fetch_rss_feed_optimized`: collected items and the
final dedup state. -/
def fetchCycle (digest : String → String) (hasClient : Bool)
    (judge : Except Unit String) (st : MonitorState) :
    List Entry → List Entry × MonitorState
  | [] => ([], st)
  | e :: rest =>
    let r1 := processEntry digest hasClient judge st e
    let r2 := fetchCycle digest hasClient judge r1.2 rest
    (match r1.1 with
     | some x => x :: r2.1
     | none => r2.1, r2.2)

/-- `check_all_sources_optimized`: fetch, send each collected item
(`sendOk` is the Telegram success oracle; `sent_count` counts successes),
then `save_state()` persists the in-memory set unconditionally. Returns
(number of successful deliveries, persisted state). -/
def runCycleOptimized (digest : String → String) (hasClient : Bool)
    (judge : Except Unit String) (sendOk : Entry → Bool) (st : MonitorState)
    (entries : List Entry) : Nat × MonitorState :=
  let fc := fetchCycle digest hasClient judge st entries
  ((fc.1.filter sendOk).length, fc.2)

/-! ### Translation cache (`SmartTranslationCache`) -/

/-- A cached translation: `{'result': ..., 'timestamp': datetime.now()}`. -/
structure CacheEntry where
  result : String
  timestamp : Int
deriving DecidableEq, Repr

/-- The mutable cache state: the key-to-entry dict, `self.daily_api_calls`
and `self.daily_limit`. -/
structure TransState where
  cache : List (String × CacheEntry)
  dailyApiCalls : Nat
  dailyLimit : Nat
deriving DecidableEq, Repr

/-- Outcome of one `get_or_translate` call, instrumented with whether
`translate_func` (the remote call) was invoked. -/
structure TransResult where
  result : String
  state : TransState
  invokedRemote : Bool
deriving DecidableEq, Repr

/-- Python dict lookup on the association-list cache (first match; inserts
are at the front, so later writes shadow earlier ones). -/
def lookupCache : List (String × CacheEntry) → String → Option CacheEntry
  | [], _ => none
  | kv :: rest, k => if kv.1 = k then some kv.2 else lookupCache rest k

/-- `_get_cache_key`: digest of `f"{translation_type}:{text[:200]}"` where
`digest` models `hashlib.sha256(...).hexdigest()`. -/
def get_cache_key (digest : String → String) (text ttype : String) : String :=
  digest (ttype ++ ":" ++ strTake text 200)

/-- `_fallback_translation`: the source returns the text unchanged
(`return text  # 단순화`, i.e. deliberately simplified). Deterministic and
local. -/
def fallback_translation (text : String) : String := text

/-- `_load_cache`: missing file (`none`) or a `pickle.load` failure
(`Except.error`) yields the empty cache; otherwise entries at or below the
cutoff `now - maxAge` are purged (the source keeps strictly newer ones). -/
def load_cache (raw : Option (Except Unit (List (String × CacheEntry))))
    (now maxAge : Int) : List (String × CacheEntry) :=
  match raw with
  | some (Except.ok data) =>
    data.filter (fun kv => decide (now - maxAge < kv.2.timestamp))
  | _ => []

/-- `get_or_translate`: short text returns "", a cache hit returns the
cached result with no age check, an exhausted daily budget returns the local
fallback without invoking the remote call, and otherwise the remote oracle
`translateFn` is invoked (`Except.error` = raised exception, caught): a
non-empty reply is cached with the current timestamp and the counter is
incremented; an empty reply or an exception yields the local fallback. -/
def get_or_translate (digest : String → String) (st : TransState)
    (text ttype : String) (translateFn : Except Unit String) (now : Int) :
    TransResult :=
  if (pyStrip text).length < 3 then ⟨"", st, false⟩
  else
    let cleaned := normalizeWs text
    let key := get_cache_key digest cleaned ttype
    match lookupCache st.cache key with
    | some e => ⟨e.result, st, false⟩
    | none =>
      if st.dailyLimit ≤ st.dailyApiCalls then
        ⟨fallback_translation cleaned, st, false⟩
      else
        match translateFn with
        | Except.ok r =>
          if r = "" then ⟨fallback_translation cleaned, st, true⟩
          else
            ⟨r, ⟨(key, ⟨r, now⟩) :: st.cache, st.dailyApiCalls + 1,
              st.dailyLimit⟩, true⟩
        | Except.error _ => ⟨fallback_translation cleaned, st, true⟩

/-! ### Persisted-state loaders -/

/-- `load_state`: missing file or a `json.load` failure yields the empty
set; a parsed file without a `sent_items` key yields the empty set
(`data.get('sent_items', [])`); otherwise the listed items as a set. -/
def load_state (file : Option (Except Unit (Option (List String)))) :
    List String :=
  match file with
  | some (Except.ok (some items)) => items.dedup
  | _ => []

/-- `APIUsageMonitor` usage record
`{'daily_calls': ..., 'date': ..., 'monthly_cost': ...}`. -/
structure UsageData where
  daily_calls : Nat
  date : String
  monthly_cost : Rat
deriving DecidableEq, Repr

/-- `_load_usage_data`: missing file or any failure (bare `except: pass`)
yields the zeroed counter dated today. -/
def load_usage_data (file : Option (Except Unit UsageData)) (today : String) :
    UsageData :=
  match file with
  | some (Except.ok d) => d
  | _ => ⟨0, today, 0⟩

/-! ### Spec-modelled keyword confidence -/

/-- Modelled from the spec: the KeywordScorer confidence mapping of spec
section 4.2 ("scores of magnitude ≥ 3 map to confidence 0.95, ≥ 2 to 0.85,
≥ 1 to 0.75, otherwise 0.3"). The provided source file's
`_calculate_keyword_score` returns only a raw score and attaches no
confidence; the KeywordScorer rewrite carrying this step mapping is part of
the repository that is not included in the provided source. -/
def keywordConfidence (finalScore : Rat) : Rat :=
  if 3 ≤ |finalScore| then 95 / 100
  else if 2 ≤ |finalScore| then 85 / 100
  else if 1 ≤ |finalScore| then 75 / 100
  else 3 / 10

/-! ### Helper lemmas -/

theorem memStr_iff (x : String) (l : List String) : memStr x l = true ↔ x ∈ l := by
  induction l with
  | nil => simp [memStr]
  | cons y t ih => simp [memStr, ih, beq_iff_eq, List.mem_cons]

theorem any_eq_false_mem {α : Type} {p : α → Bool} {l : List α}
    (h : l.any p = false) {x : α} (hx : x ∈ l) : p x = false := by
  induction l with
  | nil => cases hx
  | cons a t ih =>
    simp only [List.any_cons, Bool.or_eq_false_iff] at h
    cases hx with
    | head => exact h.1
    | tail _ hx => exact ih h.2 hx

theorem any_eq_false_of {α : Type} {p : α → Bool} {l : List α}
    (h : ∀ x ∈ l, p x = false) : l.any p = false := by
  induction l with
  | nil => rfl
  | cons a t ih =>
    simp only [List.any_cons, Bool.or_eq_false_iff]
    exact ⟨h a (List.mem_cons_self a t),
      ih fun x hx => h x (List.mem_cons_of_mem a hx)⟩

theorem scoreList_eq_acc {comb : String} {l : List (String × Int)}
    (h : ∀ p ∈ l, strContains comb p.1 = false) :
    ∀ acc : Int, scoreList comb l acc = acc := by
  induction l with
  | nil => intro acc; rfl
  | cons a t ih =>
    intro acc
    rw [scoreList, h a (List.mem_cons_self a t)]
    simp only [Bool.false_eq_true, if_false]
    exact ih (fun p hp => h p (List.mem_cons_of_mem a hp)) acc

theorem scoreList_le_acc {comb : String} {l : List (String × Int)}
    (h : ∀ p ∈ l, p.2 ≤ 0) : ∀ acc : Int, scoreList comb l acc ≤ acc := by
  induction l with
  | nil => intro acc; exact le_refl acc
  | cons a t ih =>
    intro acc
    rw [scoreList]
    have ht : ∀ p ∈ t, p.2 ≤ 0 := fun p hp => h p (List.mem_cons_of_mem a hp)
    by_cases hc : strContains comb a.1 = true
    · rw [if_pos hc]
      have h1 := ih ht (acc + a.2)
      have h2 := h a (List.mem_cons_self a t)
      omega
    · rw [if_neg hc]
      exact ih ht acc

theorem prefilter_none_no_approve {t s : String}
    (h : prefilter_before_api t s = none) :
    ∀ kw ∈ instant_approve_keywords,
      strContains (combinedText t s) kw = false := by
  unfold prefilter_before_api at h
  split_ifs at h with h1 h2
  exact fun kw hkw =>
    any_eq_false_mem (Bool.eq_false_iff.mpr fun hq => h1 hq) hkw

theorem is_new_item_fst_true (digest : String → String) (st : MonitorState)
    (t l : String) (h : generate_item_id digest t l ∉ st.sent_items) :
    (is_new_item digest st t l).1 = true := by
  have hm : memStr (generate_item_id digest t l) st.sent_items = false :=
    Bool.eq_false_iff.mpr fun hq => h ((memStr_iff _ _).mp hq)
  simp [is_new_item, hm]

theorem is_new_item_fst_false_of_mem (digest : String → String)
    (st : MonitorState) (t l : String)
    (h : generate_item_id digest t l ∈ st.sent_items) :
    (is_new_item digest st t l).1 = false := by
  have hm : memStr (generate_item_id digest t l) st.sent_items = true :=
    (memStr_iff _ _).mpr h
  simp [is_new_item, hm]

theorem is_new_item_snd_mem (digest : String → String) (st : MonitorState)
    (t l : String) :
    generate_item_id digest t l ∈ (is_new_item digest st t l).2.sent_items := by
  by_cases hm : memStr (generate_item_id digest t l) st.sent_items = true
  · simp only [is_new_item, hm, if_true]
    exact (memStr_iff _ _).mp hm
  · rw [Bool.not_eq_true] at hm
    simp only [is_new_item, hm, Bool.false_eq_true, if_false]
    exact List.mem_cons_self _ _

theorem is_new_item_snd_mono (digest : String → String) (st : MonitorState)
    (t l x : String) (h : x ∈ st.sent_items) :
    x ∈ (is_new_item digest st t l).2.sent_items := by
  by_cases hm : memStr (generate_item_id digest t l) st.sent_items = true
  · simp only [is_new_item, hm, if_true]; exact h
  · rw [Bool.not_eq_true] at hm
    simp only [is_new_item, hm, Bool.false_eq_true, if_false]
    exact List.mem_cons_of_mem _ h

theorem processEntry_fst_none (digest : String → String) (hasClient : Bool)
    (judge : Except Unit String) (st : MonitorState) (e : Entry) :
    (processEntry digest hasClient judge st e).1 = none := by
  unfold processEntry
  by_cases hm : memStr (generate_item_id digest e.title e.link) st.sent_items = true
  · have h1 : (is_new_item digest st e.title e.link).1 = false :=
      is_new_item_fst_false_of_mem _ _ _ _ ((memStr_iff _ _).mp hm)
    simp [h1]
  · rw [Bool.not_eq_true] at hm
    have h1 : (is_new_item digest st e.title e.link).1 = true := by
      simp [is_new_item, hm]
    have h2 : (is_new_item digest
        (is_new_item digest st e.title e.link).2 e.title e.link).1 = false :=
      is_new_item_fst_false_of_mem _ _ _ _ (is_new_item_snd_mem _ _ _ _)
    simp only [h1, Bool.true_eq_false, if_false]
    cases hp : prefilter_before_api e.title e.summary with
    | none =>
      by_cases hc : classify_with_claude hasClient judge = true
      · simp [hc, h2]
      · rw [Bool.not_eq_true] at hc
        simp [hc]
    | some b => cases b <;> simp [h2]

theorem processEntry_snd_mem (digest : String → String) (hasClient : Bool)
    (judge : Except Unit String) (st : MonitorState) (e : Entry) :
    generate_item_id digest e.title e.link ∈
      (processEntry digest hasClient judge st e).2.sent_items := by
  unfold processEntry
  by_cases h1 : (is_new_item digest st e.title e.link).1 = false
  · simp only [h1, if_true]
    exact is_new_item_snd_mem _ _ _ _
  · simp only [h1, if_false]
    cases hp : prefilter_before_api e.title e.summary with
    | none =>
      by_cases hc : classify_with_claude hasClient judge = true
      · simp only [hc, if_true]
        by_cases h2 : (is_new_item digest
            (is_new_item digest st e.title e.link).2 e.title e.link).1
        · simp only [h2, if_true]
          exact is_new_item_snd_mono _ _ _ _ _ (is_new_item_snd_mem _ _ _ _)
        · simp only [h2, Bool.false_eq_true, if_false]
          exact is_new_item_snd_mono _ _ _ _ _ (is_new_item_snd_mem _ _ _ _)
      · rw [Bool.not_eq_true] at hc
        simp only [hc, Bool.false_eq_true, if_false]
        exact is_new_item_snd_mem _ _ _ _
    | some b =>
      cases b with
      | true => simp only; exact is_new_item_snd_mem _ _ _ _
      | false =>
        by_cases h2 : (is_new_item digest
            (is_new_item digest st e.title e.link).2 e.title e.link).1
        · simp only [h2, if_true]
          exact is_new_item_snd_mono _ _ _ _ _ (is_new_item_snd_mem _ _ _ _)
        · simp only [h2, Bool.false_eq_true, if_false]
          exact is_new_item_snd_mono _ _ _ _ _ (is_new_item_snd_mem _ _ _ _)

theorem processEntry_snd_mono (digest : String → String) (hasClient : Bool)
    (judge : Except Unit String) (st : MonitorState) (e : Entry) (x : String)
    (h : x ∈ st.sent_items) :
    x ∈ (processEntry digest hasClient judge st e).2.sent_items := by
  unfold processEntry
  by_cases h1 : (is_new_item digest st e.title e.link).1 = false
  · simp only [h1, if_true]
    exact is_new_item_snd_mono _ _ _ _ _ h
  · simp only [h1, if_false]
    have hst : x ∈ (is_new_item digest st e.title e.link).2.sent_items :=
      is_new_item_snd_mono _ _ _ _ _ h
    cases hp : prefilter_before_api e.title e.summary with
    | none =>
      by_cases hc : classify_with_claude hasClient judge = true
      · simp only [hc, if_true]
        by_cases h2 : (is_new_item digest
            (is_new_item digest st e.title e.link).2 e.title e.link).1
        · simp only [h2, if_true]
          exact is_new_item_snd_mono _ _ _ _ _ hst
        · simp only [h2, Bool.false_eq_true, if_false]
          exact is_new_item_snd_mono _ _ _ _ _ hst
      · rw [Bool.not_eq_true] at hc
        simp only [hc, Bool.false_eq_true, if_false]
        exact hst
    | some b =>
      cases b with
      | true => simp only; exact hst
      | false =>
        by_cases h2 : (is_new_item digest
            (is_new_item digest st e.title e.link).2 e.title e.link).1
        · simp only [h2, if_true]
          exact is_new_item_snd_mono _ _ _ _ _ hst
        · simp only [h2, Bool.false_eq_true, if_false]
          exact is_new_item_snd_mono _ _ _ _ _ hst

theorem fetchCycle_fst_nil (digest : String → String) (hasClient : Bool)
    (judge : Except Unit String) (st : MonitorState) (entries : List Entry) :
    (fetchCycle digest hasClient judge st entries).1 = [] := by
  induction entries generalizing st with
  | nil => rfl
  | cons e rest ih =>
    rw [fetchCycle]
    simp only [processEntry_fst_none]
    exact ih _

theorem fetchCycle_snd_mono (digest : String → String) (hasClient : Bool)
    (judge : Except Unit String) (st : MonitorState) (entries : List Entry)
    (x : String) (h : x ∈ st.sent_items) :
    x ∈ (fetchCycle digest hasClient judge st entries).2.sent_items := by
  induction entries generalizing st with
  | nil => exact h
  | cons e rest ih =>
    rw [fetchCycle]
    exact ih _ (processEntry_snd_mono _ _ _ _ _ _ h)

theorem fetchCycle_snd_mem (digest : String → String) (hasClient : Bool)
    (judge : Except Unit String) (st : MonitorState) (entries : List Entry)
    (e : Entry) (h : e ∈ entries) :
    generate_item_id digest e.title e.link ∈
      (fetchCycle digest hasClient judge st entries).2.sent_items := by
  induction entries generalizing st with
  | nil => cases h
  | cons a rest ih =>
    rw [fetchCycle]
    cases h with
    | head =>
      exact fetchCycle_snd_mono _ _ _ _ _ _ (processEntry_snd_mem _ _ _ _ _)
    | tail _ h => exact ih _ h

theorem runCycle_fst_zero (digest : String → String) (hasClient : Bool)
    (judge : Except Unit String) (sendOk : Entry → Bool) (st : MonitorState)
    (entries : List Entry) :
    (runCycleOptimized digest hasClient judge sendOk st entries).1 = 0 := by
  unfold runCycleOptimized
  simp [fetchCycle_fst_nil]

/-! ### Claim theorems -/

/-- C1: the first `is_new_item(title, link)` call on an unseen pair returns
`True` and marks the derived identifier as seen (the check is itself a
reservation); every later call with the same pair returns `False`; and
running the full optimized pipeline twice on the same item yields at most
one delivery, the second run's deduplication check answering `False` (the
short-circuit). -/
theorem c1_dedup_check_is_reservation :
    (∀ (digest : String → String) (st : MonitorState) (t l : String),
      generate_item_id digest t l ∉ st.sent_items →
        (is_new_item digest st t l).1 = true ∧
        generate_item_id digest t l ∈ (is_new_item digest st t l).2.sent_items)
    ∧ (∀ (digest : String → String) (st : MonitorState) (t l : String),
      (is_new_item digest (is_new_item digest st t l).2 t l).1 = false)
    ∧ (∀ (digest : String → String) (hc : Bool) (judge : Except Unit String)
        (sendOk : Entry → Bool) (st : MonitorState) (e : Entry),
      (runCycleOptimized digest hc judge sendOk st [e]).1 +
        (runCycleOptimized digest hc judge sendOk
          (runCycleOptimized digest hc judge sendOk st [e]).2 [e]).1 ≤ 1
      ∧ (is_new_item digest (runCycleOptimized digest hc judge sendOk st [e]).2
          e.title e.link).1 = false) := by
  refine ⟨?_, ?_, ?_⟩
  · intro digest st t l h
    exact ⟨is_new_item_fst_true digest st t l h, is_new_item_snd_mem _ _ _ _⟩
  · intro digest st t l
    exact is_new_item_fst_false_of_mem _ _ _ _ (is_new_item_snd_mem _ _ _ _)
  · intro digest hc judge sendOk st e
    constructor
    · rw [runCycle_fst_zero, runCycle_fst_zero]
      omega
    · apply is_new_item_fst_false_of_mem
      unfold runCycleOptimized
      exact fetchCycle_snd_mem _ _ _ _ _ _ (List.mem_singleton.mpr rfl)

/-- Witness for C1 at a concrete unseen pair and a concrete run. -/
theorem c1_dedup_check_is_reservation_witness :
    (is_new_item (fun s => s) ⟨[]⟩ "t" "l").1 = true ∧
    generate_item_id (fun s => s) "t" "l" ∈
      (is_new_item (fun s => s) ⟨[]⟩ "t" "l").2.sent_items ∧
    (is_new_item (fun s => s) (runCycleOptimized (fun s => s) true
        (Except.ok "RELEVANT") (fun _ => true) ⟨[]⟩
        [⟨"t", "s", "l"⟩]).2 "t" "l").1 = false :=
  ⟨(c1_dedup_check_is_reservation.1 (fun s => s) ⟨[]⟩ "t" "l"
      (List.not_mem_nil _)).1,
   (c1_dedup_check_is_reservation.1 (fun s => s) ⟨[]⟩ "t" "l"
      (List.not_mem_nil _)).2,
   (c1_dedup_check_is_reservation.2.2 (fun s => s) true (Except.ok "RELEVANT")
      (fun _ => true) ⟨[]⟩ ⟨"t", "s", "l"⟩).2⟩

/-- C2 counterexample: a cycle in which no delivery ever succeeds (the send
oracle always fails; in fact the optimized pipeline never even collects the
item) still commits the item's identifier to the persisted sent-item set at
the deduplication check, and the next cycle does not retry it: its dedup
check answers `False` and again nothing is delivered. This refutes the
claim that a failed delivery leaves the item unmarked and retried. -/
theorem c2_failed_delivery_committed_cex :
    (runCycleOptimized (fun s => s) true (Except.ok "RELEVANT")
      (fun _ => false) ⟨[]⟩ [⟨"covid", "", "L"⟩]).1 = 0
    ∧ "covidL" ∈ (runCycleOptimized (fun s => s) true (Except.ok "RELEVANT")
      (fun _ => false) ⟨[]⟩ [⟨"covid", "", "L"⟩]).2.sent_items
    ∧ (runCycleOptimized (fun s => s) true (Except.ok "RELEVANT")
      (fun _ => false)
      (runCycleOptimized (fun s => s) true (Except.ok "RELEVANT")
        (fun _ => false) ⟨[]⟩ [⟨"covid", "", "L"⟩]).2
      [⟨"covid", "", "L"⟩]).1 = 0
    ∧ (is_new_item (fun s => s)
      (runCycleOptimized (fun s => s) true (Except.ok "RELEVANT")
        (fun _ => false) ⟨[]⟩ [⟨"covid", "", "L"⟩]).2 "covid" "L").1 = false := by
  refine ⟨by decide, by decide, by decide, by decide⟩

/-- C2 amended: the item's identifier is marked as seen at the
deduplication check — before classification, translation or delivery — and
the unconditional end-of-cycle `save_state()` persists it regardless of the
delivery outcome, so a failed delivery is NOT retried in the next cycle:
after a cycle every processed entry's identifier is in the persisted set,
for every send oracle. -/
theorem c2_commit_independent_of_delivery (digest : String → String)
    (hc : Bool) (judge : Except Unit String) (sendOk : Entry → Bool)
    (st : MonitorState) (entries : List Entry) (e : Entry)
    (h : e ∈ entries) :
    generate_item_id digest e.title e.link ∈
      (runCycleOptimized digest hc judge sendOk st entries).2.sent_items := by
  unfold runCycleOptimized
  exact fetchCycle_snd_mem _ _ _ _ _ _ h

/-- Witness for the amended C2 at a concrete entry with an always-failing
send oracle. -/
theorem c2_commit_independent_of_delivery_witness :
    generate_item_id (fun s => s) "t" "l" ∈
      (runCycleOptimized (fun s => s) false (Except.error ()) (fun _ => false)
        ⟨[]⟩ [⟨"t", "s", "l"⟩]).2.sent_items :=
  c2_commit_independent_of_delivery (fun s => s) false (Except.error ())
    (fun _ => false) ⟨[]⟩ [⟨"t", "s", "l"⟩] ⟨"t", "s", "l"⟩
    (List.mem_singleton.mpr rfl)

/-- C10: the deduplication identifier is the digest of the bare
concatenation `title + link` with no separator, so the distinct pairs
`("ab", "c")` and `("a", "bc")` yield the same identifier for every digest
function, and after seeing one the other is suppressed by `is_new_item`. -/
theorem c10_bare_concat_id_collision (digest : String → String) :
    generate_item_id digest "ab" "c" = generate_item_id digest "a" "bc"
    ∧ (("ab", "c") : String × String) ≠ ("a", "bc")
    ∧ (is_new_item digest ⟨[]⟩ "ab" "c").1 = true
    ∧ (is_new_item digest (is_new_item digest ⟨[]⟩ "ab" "c").2
        "a" "bc").1 = false := by
  refine ⟨rfl, by decide, ?_, ?_⟩
  · exact is_new_item_fst_true _ _ _ _ (List.not_mem_nil _)
  · apply is_new_item_fst_false_of_mem
    have h : generate_item_id digest "a" "bc" =
        generate_item_id digest "ab" "c" := rfl
    rw [h]
    exact is_new_item_snd_mem _ _ _ _

/-- Witness for C10 at a concrete digest function. -/
theorem c10_bare_concat_id_collision_witness :
    generate_item_id (fun s => s) "ab" "c" =
      generate_item_id (fun s => s) "a" "bc"
    ∧ (is_new_item (fun s => s) (is_new_item (fun s => s) ⟨[]⟩ "ab" "c").2
        "a" "bc").1 = false :=
  ⟨(c10_bare_concat_id_collision (fun s => s)).1,
   (c10_bare_concat_id_collision (fun s => s)).2.2.2⟩

/-- C3: whenever some instant-reject keyword occurs in the lower-cased
combined text and no instant-approve keyword does, classification returns
decision `false` decided at the prefilter stage, and the remote judge is
not invoked — for every judge oracle and client state, i.e. regardless of
what any heavier stage would say. -/
theorem c3_prefilter_reject_precedence (title summary : String)
    (hasClient : Bool) (judge : Except Unit String)
    (hrej : ∃ kw ∈ instant_reject_keywords,
      strContains (combinedText title summary) kw = true)
    (happ : ∀ kw ∈ instant_approve_keywords,
      strContains (combinedText title summary) kw = false) :
    classify_with_prefilter title summary hasClient judge = (false, false) := by
  have ha : instant_approve_keywords.any
      (fun kw => strContains (combinedText title summary) kw) = false :=
    any_eq_false_of happ
  have hr : instant_reject_keywords.any
      (fun kw => strContains (combinedText title summary) kw) = true := by
    obtain ⟨kw, hkw, hc⟩ := hrej
    exact List.any_eq_true.mpr ⟨kw, hkw, hc⟩
  simp [classify_with_prefilter, prefilter_before_api, ha, hr]

/-- Witness for C3: a concrete title containing the reject keyword "covid"
and no approve keyword, with a judge that would have said RELEVANT. -/
theorem c3_prefilter_reject_precedence_witness :
    classify_with_prefilter "covid news" "" true (Except.ok "RELEVANT") =
      (false, false) :=
  c3_prefilter_reject_precedence "covid news" "" true (Except.ok "RELEVANT")
    ⟨"covid", by decide, by decide⟩ (by decide)

/-- C4: on the no-model path (this source has no model classifier), when
the prefilter is undecided and the remote judge is unavailable (no client,
or an exception) or returns no verdict (any reply other than an exact
RELEVANT/IRRELEVANT), the final decision equals `keyword_score >= 2`. In
this code both sides are `false`: every positive keyword of the scorer is
also an instant-approve keyword, so an undecided text has score at most 0,
and `classify_with_claude` yields `false` without a RELEVANT verdict. -/
theorem c4_no_verdict_conservative_equality (title summary : String)
    (hasClient : Bool) (judge : Except Unit String)
    (hpre : prefilter_before_api title summary = none)
    (hnv : hasClient = false ∨ judge = Except.error () ∨
      ∃ r, judge = Except.ok r ∧ pyUpper (pyStrip r) ≠ "RELEVANT" ∧
        pyUpper (pyStrip r) ≠ "IRRELEVANT") :
    (classify_with_prefilter title summary hasClient judge).1 =
      decide (2 ≤ calculate_keyword_score title summary) := by
  have happ := prefilter_none_no_approve hpre
  have hcl : classify_with_claude hasClient judge = false := by
    rcases hnv with h | h | ⟨r, hr, hne, _⟩
    · rw [h]; rfl
    · rw [h]; cases hasClient <;> rfl
    · rw [hr]; cases hasClient with
      | false => rfl
      | true => simp [classify_with_claude, hne]
  have hdino : ∀ p ∈ strong_dino,
      strContains (combinedText title summary) p.1 = false := by
    intro p hp
    refine happ p.1 ?_
    simp only [strong_dino, List.mem_cons, List.not_mem_nil, or_false] at hp
    rcases hp with rfl | rfl | rfl | rfl | rfl | rfl | rfl | rfl <;> decide
  have hscore : calculate_keyword_score title summary ≤ 0 := by
    unfold calculate_keyword_score
    rw [scoreList_eq_acc hdino 0]
    exact scoreList_le_acc (by decide) 0
  have hlt : ¬ (2 ≤ calculate_keyword_score title summary) := by omega
  simp [classify_with_prefilter, hpre, hcl, hlt]

/-- Witness for C4: a concrete undecided text with the judge unavailable. -/
theorem c4_no_verdict_conservative_equality_witness :
    (classify_with_prefilter "hello" "world" false (Except.error ())).1 =
      decide (2 ≤ calculate_keyword_score "hello" "world") :=
  c4_no_verdict_conservative_equality "hello" "world" false (Except.error ())
    (by decide) (Or.inl rfl)

/-- C5: `classify_with_claude` is a total function of the reply oracle —
a raised exception is caught, never propagated — and it returns `true`
exactly when a client is present and the stripped, upper-cased reply is
"RELEVANT"; an exact "IRRELEVANT", any other reply, an exception, or an
absent client all yield `false` (the code's no-verdict fallback). -/
theorem c5_judge_verdict_total (hasClient : Bool)
    (judge : Except Unit String) :
    classify_with_claude hasClient judge = true ↔
      hasClient = true ∧ ∃ r, judge = Except.ok r ∧
        pyUpper (pyStrip r) = "RELEVANT" := by
  cases hasClient with
  | false => simp [classify_with_claude]
  | true =>
    cases judge with
    | error e => simp [classify_with_claude]
    | ok r =>
      by_cases h : pyUpper (pyStrip r) = "RELEVANT"
      · simp [classify_with_claude, h]
      · simp [classify_with_claude, h]

/-- Witness for C5: a padded lower-case "relevant" reply is accepted, an
"IRRELEVANT" reply is not. -/
theorem c5_judge_verdict_total_witness :
    classify_with_claude true (Except.ok " relevant ") = true ∧
    classify_with_claude true (Except.ok "IRRELEVANT") ≠ true :=
  ⟨(c5_judge_verdict_total true (Except.ok " relevant ")).mpr
    ⟨rfl, " relevant ", rfl, by decide⟩,
   fun h => by
    obtain ⟨-, r, hr, hrel⟩ :=
      (c5_judge_verdict_total true (Except.ok "IRRELEVANT")).mp h
    cases hr
    exact absurd hrel (by decide)⟩

/-- C6 (spec-modelled): the keyword scorer's confidence is a non-decreasing
function of the magnitude of `final_score`, following the step mapping of
the spec: magnitude at least 3 gives 0.95, at least 2 gives 0.85, at least
1 gives 0.75, and otherwise 0.3. -/
theorem c6_confidence_step_monotone :
    (∀ s₁ s₂ : Rat, |s₁| ≤ |s₂| →
      keywordConfidence s₁ ≤ keywordConfidence s₂)
    ∧ (∀ s : Rat, 3 ≤ |s| → keywordConfidence s = 95 / 100)
    ∧ (∀ s : Rat, 2 ≤ |s| → |s| < 3 → keywordConfidence s = 85 / 100)
    ∧ (∀ s : Rat, 1 ≤ |s| → |s| < 2 → keywordConfidence s = 75 / 100)
    ∧ (∀ s : Rat, |s| < 1 → keywordConfidence s = 3 / 10) := by
  refine ⟨?_, ?_, ?_, ?_, ?_⟩
  · intro s₁ s₂ h
    unfold keywordConfidence
    split_ifs <;> linarith
  · intro s h
    unfold keywordConfidence
    rw [if_pos h]
  · intro s h1 h2
    unfold keywordConfidence
    rw [if_neg (by linarith), if_pos h1]
  · intro s h1 h2
    unfold keywordConfidence
    rw [if_neg (by linarith), if_neg (by linarith), if_pos h1]
  · intro s h
    unfold keywordConfidence
    rw [if_neg (by linarith), if_neg (by linarith), if_neg (by linarith)]

/-- Witness for C6 at concrete scores 1 and 3. -/
theorem c6_confidence_step_monotone_witness :
    keywordConfidence 1 ≤ keywordConfidence 3 ∧
    keywordConfidence 3 = 95 / 100 ∧
    keywordConfidence (-2) = 85 / 100 :=
  ⟨c6_confidence_step_monotone.1 1 3 (by norm_num),
   c6_confidence_step_monotone.2.1 3 (by norm_num),
   c6_confidence_step_monotone.2.2.1 (-2) (by norm_num) (by norm_num)⟩

/-- C7 counterexample: `get_or_translate` performs no age check on a cache
hit, so on a state holding an entry written at time 0 and queried at time
100 with a 30-unit max age — older than the max age — the stale cached
result is returned as a hit and the remote call is not consulted. This
refutes the claim that such an entry is never returned. -/
theorem c7_stale_hit_cex :
    get_or_translate (fun _ => "k") ⟨[("k", ⟨"cached", 0⟩)], 0, 2000⟩
        "hello" "translate" (Except.ok "fresh") 100 =
      ⟨"cached", ⟨[("k", ⟨"cached", 0⟩)], 0, 2000⟩, false⟩
    ∧ (30 : Int) < 100 - 0 := by
  exact ⟨by decide, by decide⟩

/-- C7 amended: entries older than the max age are purged by `_load_cache`,
so every entry of a freshly loaded cache is younger than the max age as of
the load; and a freshly written entry is returned as a hit by the next call
with the same text and kind, until overwritten. `get_or_translate` itself
performs no age check, so an entry that outlives the max age between loads
is still returned (see the counterexample). -/
theorem c7_ttl_purge_on_load_and_fresh_hit :
    (∀ (raw : Option (Except Unit (List (String × CacheEntry))))
        (now maxAge : Int) (kv : String × CacheEntry),
      kv ∈ load_cache raw now maxAge → now - maxAge < kv.2.timestamp)
    ∧ (∀ (digest : String → String) (st : TransState)
        (text ttype r : String) (now now2 : Int) (fn : Except Unit String),
      3 ≤ (pyStrip text).length →
      lookupCache st.cache
        (get_cache_key digest (normalizeWs text) ttype) = none →
      st.dailyApiCalls < st.dailyLimit →
      r ≠ "" →
      get_or_translate digest
          (get_or_translate digest st text ttype (Except.ok r) now).state
          text ttype fn now2 =
        ⟨r, (get_or_translate digest st text ttype (Except.ok r) now).state,
          false⟩) := by
  constructor
  · intro raw now maxAge kv hkv
    match raw with
    | none => cases hkv
    | some (Except.error e) => cases hkv
    | some (Except.ok data) =>
      simp only [load_cache, List.mem_filter] at hkv
      exact of_decide_eq_true hkv.2
  · intro digest st text ttype r now now2 fn hlen hmiss hbud hr
    have h1 : ¬ ((pyStrip text).length < 3) := by omega
    have h2 : ¬ (st.dailyLimit ≤ st.dailyApiCalls) := by omega
    have hstate : (get_or_translate digest st text ttype
        (Except.ok r) now).state =
        ⟨(get_cache_key digest (normalizeWs text) ttype, ⟨r, now⟩) ::
          st.cache, st.dailyApiCalls + 1, st.dailyLimit⟩ := by
      simp [get_or_translate, h1, hmiss, h2, hr]
    rw [hstate]
    simp [get_or_translate, h1, lookupCache]

/-- Witness for C7: a load that keeps a young entry, and a concrete
write-then-read returning the fresh translation as a hit. -/
theorem c7_ttl_purge_on_load_and_fresh_hit_witness :
    ((("k", (⟨"x", 50⟩ : CacheEntry)) ∈
        load_cache (some (Except.ok [("k", ⟨"x", 50⟩)])) 60 30) →
      (60 : Int) - 30 < 50)
    ∧ get_or_translate (fun _ => "K")
        (get_or_translate (fun _ => "K") ⟨[], 0, 2000⟩ "hello" "title"
          (Except.ok "bonjour") 5).state "hello" "title"
        (Except.error ()) 7 =
      ⟨"bonjour", (get_or_translate (fun _ => "K") ⟨[], 0, 2000⟩ "hello"
        "title" (Except.ok "bonjour") 5).state, false⟩ :=
  ⟨fun h => c7_ttl_purge_on_load_and_fresh_hit.1
      (some (Except.ok [("k", ⟨"x", 50⟩)])) 60 30 ("k", ⟨"x", 50⟩) h,
   c7_ttl_purge_on_load_and_fresh_hit.2 (fun _ => "K") ⟨[], 0, 2000⟩
     "hello" "title" "bonjour" 5 7 (Except.error ()) (by decide) rfl
     (by decide) (by decide)⟩

/-- C8: for a text not already cached, when the daily call budget is
exhausted `get_or_translate` does not invoke the remote translation
function (the result is the same for every oracle and the instrumentation
flag is `false`) and returns the deterministic local fallback translation
of the cleaned text instead of failing. (In this source
`_fallback_translation` is the deliberately simplified identity on the
text; the pattern-substitution table lives in the monitor's
`fallback_translate`.) -/
theorem c8_budget_exhausted_local_fallback (digest : String → String)
    (st : TransState) (text ttype : String) (fn : Except Unit String)
    (now : Int)
    (hlen : 3 ≤ (pyStrip text).length)
    (hmiss : lookupCache st.cache
      (get_cache_key digest (normalizeWs text) ttype) = none)
    (hbud : st.dailyLimit ≤ st.dailyApiCalls) :
    get_or_translate digest st text ttype fn now =
      ⟨fallback_translation (normalizeWs text), st, false⟩ := by
  have h1 : ¬ ((pyStrip text).length < 3) := by omega
  simp [get_or_translate, h1, hmiss, hbud]

/-- Witness for C8: an exhausted budget at a concrete state and text. -/
theorem c8_budget_exhausted_local_fallback_witness :
    get_or_translate (fun s => s) ⟨[], 5, 5⟩ "hello" "title"
        (Except.ok "ignored") 0 =
      ⟨fallback_translation (normalizeWs "hello"), ⟨[], 5, 5⟩, false⟩ :=
  c8_budget_exhausted_local_fallback (fun s => s) ⟨[], 5, 5⟩ "hello" "title"
    (Except.ok "ignored") 0 (by decide) rfl (by decide)

/-- C9: each persisted-state loader is a total function (no fatal error)
and maps a missing file (`none`) or a corrupted/unreadable one
(`Except.error`, the caught parse exception) to the empty state: empty
sent-item set, zeroed usage counter dated today, empty translation cache. -/
theorem c9_loaders_fail_open
    (f1 : Option (Except Unit (Option (List String))))
    (f2 : Option (Except Unit UsageData))
    (f3 : Option (Except Unit (List (String × CacheEntry))))
    (now maxAge : Int) (today : String)
    (h1 : f1 = none ∨ f1 = some (Except.error ()))
    (h2 : f2 = none ∨ f2 = some (Except.error ()))
    (h3 : f3 = none ∨ f3 = some (Except.error ())) :
    load_state f1 = [] ∧ load_usage_data f2 today = ⟨0, today, 0⟩
      ∧ load_cache f3 now maxAge = [] := by
  refine ⟨?_, ?_, ?_⟩
  · rcases h1 with h | h <;> rw [h] <;> rfl
  · rcases h2 with h | h <;> rw [h] <;> rfl
  · rcases h3 with h | h <;> rw [h] <;> rfl

/-- Witness for C9: all three files missing. -/
theorem c9_loaders_fail_open_witness :
    load_state none = [] ∧
    load_usage_data none "2026-10-12" = ⟨0, "2026-10-12", 0⟩ ∧
    load_cache none 0 30 = [] :=
  c9_loaders_fail_open none none none 0 30 "2026-10-12"
    (Or.inl rfl) (Or.inl rfl) (Or.inl rfl)

end DinoNews
